import Mathlib

/-!
Shallow embedding of the fin-modeler financial engine
(src/unnamed/part_002, part_003, part_004, src/lib/financeEngine/utils.ts,
src/lib/types.ts) in Lean 4.

JavaScript numbers are modelled by the rationals: every formula of the engine
is built from field arithmetic, max/min, and comparisons, which the rationals
carry exactly. The few places where JavaScript specific number semantics
matter (division by zero producing Infinity or NaN, the falsiness of 0 and
NaN in a boolean position) are modelled explicitly through the small JSNum
type below, at exactly the call sites where the source exhibits them.

Integer valued fields that the data model of the spec declares as integers
(months, monthIndex, monthOffset, hiringDelayMonths) are modelled by Nat or
Int; all other numeric fields are rationals.
-/

namespace FinModeler

/-- Model of a JavaScript number as used in the few expressions where the
special values matter: undefined (a missing property), NaN, the two
infinities, and a finite value. -/
inductive JSNum where
  | undefined : JSNum
  | nan : JSNum
  | posInf : JSNum
  | negInf : JSNum
  | num : ℚ → JSNum
deriving DecidableEq, Repr

/-- JavaScript division. undefined coerces to NaN; NaN propagates; a nonzero
finite numerator over zero gives a signed infinity; 0/0 gives NaN; a finite
numerator over an infinity gives 0. The sign of zero is not tracked: no call
site in the repository distinguishes 0 from -0. -/
def jsDiv (a b : JSNum) : JSNum :=
  match a, b with
  | .undefined, _ => .nan
  | .nan, _ => .nan
  | _, .undefined => .nan
  | _, .nan => .nan
  | .posInf, .posInf => .nan
  | .posInf, .negInf => .nan
  | .negInf, .posInf => .nan
  | .negInf, .negInf => .nan
  | .posInf, .num q => if q < 0 then .negInf else .posInf
  | .negInf, .num q => if q < 0 then .posInf else .negInf
  | .num _, .posInf => .num 0
  | .num _, .negInf => .num 0
  | .num p, .num q =>
    if q = 0 then (if p = 0 then .nan else if 0 < p then .posInf else .negInf)
    else .num (p / q)

/-- JavaScript truthiness of a number-like value: undefined, NaN and 0 are
falsy, everything else is truthy. -/
def jsTruthy : JSNum → Bool
  | .undefined => false
  | .nan => false
  | .posInf => true
  | .negInf => true
  | .num q => decide (q ≠ 0)

/-- JavaScript a || b, used where the result then flows on as a finite
number. At the one call site in the repository (the starting active customer
initializer of runScenario) the left operand is always NaN, so the infinite
branches are unreachable; they fall back to b here. -/
def jsOrElse (a : JSNum) (b : ℚ) : ℚ :=
  match a with
  | .num q => if q = 0 then b else q
  | _ => b

/-- JavaScript x < c for a number-like left operand and a finite bound:
NaN (and undefined, which coerces to NaN) compares false. -/
def jsLt (a : JSNum) (c : ℚ) : Bool :=
  match a with
  | .undefined => false
  | .nan => false
  | .posInf => false
  | .negInf => true
  | .num q => decide (q < c)

/-- Render of q to one decimal place, the rule of Number.prototype.toFixed:
the integer n closest to 10q, ties resolved to the larger n. The sign of a
negative zero is not reproduced; the rendering only feeds warning message
text that no claim depends on. -/
def ratToFixed1 (q : ℚ) : String :=
  let n : ℤ := Int.floor (q * 10 + 1 / 2)
  let m := n.natAbs
  let s := toString (m / 10) ++ "." ++ toString (m % 10)
  if n < 0 then "-" ++ s else s

/-- toFixed(1) on a JSNum. -/
def jsToFixed1 : JSNum → String
  | .num q => ratToFixed1 q
  | .posInf => "Infinity"
  | .negInf => "-Infinity"
  | _ => "NaN"

/-- CompanyInput (src/lib/types.ts:19-28). The enumerated stage and sector
and the country and currency codes are modelled as strings. -/
structure CompanyInput where
  name : String
  stage : String
  sector : String
  country : String
  currency : String
  startingCash : ℚ
  startingMRR : ℚ
  currentHeadcount : ℚ
deriving DecidableEq, Repr

/-- AssumptionInput (src/lib/types.ts:50-70). months is the integer horizon
of the data model (spec section 3) and the loop bound of runScenario. Note
that the interface declares no startingMRR field. -/
structure AssumptionInput where
  name : String
  startMonth : String
  months : ℕ
  pricingModel : String
  arpu : ℚ
  expectedNewCustomersPerMonth : ℚ
  expansionRevenueRate : ℚ
  churnRate : ℚ
  cac : ℚ
  paybackPeriodMonths : ℚ
  grossMarginPercent : ℚ
  fixedCostsPerMonth : ℚ
  variableCostPercentOfRevenue : ℚ
deriving DecidableEq, Repr

/-- HiringPlanItemInput (src/lib/types.ts:72-78). -/
structure HiringPlanItemInput where
  monthOffset : ℤ
  roleName : String
  count : ℚ
  monthlySalaryPerHead : ℚ
  department : String
deriving DecidableEq, Repr

/-- One entry of customMonthlyOverrides (src/lib/types.ts:103-107). -/
structure CustomMonthlyOverride where
  monthOffset : ℤ
  newCustomers : Option ℚ := none
  fixedCosts : Option ℚ := none
deriving DecidableEq, Repr

/-- ScenarioOverrides (src/lib/types.ts:84-108); every field is optional. -/
structure ScenarioOverrides where
  customerGrowthMultiplier : Option ℚ := none
  arpuMultiplier : Option ℚ := none
  churnRateAdjustment : Option ℚ := none
  expansionRevenueRateAdjustment : Option ℚ := none
  grossMarginAdjustment : Option ℚ := none
  fixedCostsMultiplier : Option ℚ := none
  variableCostMultiplier : Option ℚ := none
  hiringDelayMonths : Option ℤ := none
  salaryMultiplier : Option ℚ := none
  customMonthlyOverrides : Option (List CustomMonthlyOverride) := none
deriving DecidableEq, Repr

/-- MonthlyProjection (src/lib/types.ts:120-149); runwayMonths is
number | null, modelled as Option. -/
structure MonthlyProjection where
  monthIndex : ℕ
  month : String
  startingCash : ℚ
  endingCash : ℚ
  netBurn : ℚ
  runwayMonths : Option ℚ
  newCustomers : ℚ
  churnedCustomers : ℚ
  activeCustomers : ℚ
  mrr : ℚ
  revenue : ℚ
  cogs : ℚ
  grossProfit : ℚ
  salaryCosts : ℚ
  fixedCosts : ℚ
  variableCosts : ℚ
  totalOpex : ℚ
  headcount : ℚ
deriving DecidableEq, Repr, Inhabited

/-- ProjectionSummary (src/lib/types.ts:151-181). -/
structure ProjectionSummary where
  scenarioName : String
  startingMRR : ℚ
  endingMRR : ℚ
  mrrGrowthPercent : ℚ
  peakBurn : ℚ
  peakBurnMonth : String
  avgMonthlyBurn : ℚ
  startingCash : ℚ
  endingCash : ℚ
  totalCashBurned : ℚ
  zeroCashMonth : Option String
  minRunway : Option ℚ
  totalRevenue : ℚ
  startingHeadcount : ℚ
  endingHeadcount : ℚ
  ltv : Option ℚ
  cacPaybackMonths : ℚ
deriving DecidableEq, Repr

/-- FinancialModelInput (src/lib/types.ts:187-192). -/
structure FinancialModelInput where
  company : CompanyInput
  assumptions : AssumptionInput
  hiringPlan : List HiringPlanItemInput
  scenarioOverrides : Option ScenarioOverrides := none
deriving DecidableEq, Repr

/-- FinancialModelOutput (src/lib/types.ts:194-197). generateSummary throws
on an empty projection list; the thrown error is modelled by a none
summary. -/
structure FinancialModelOutput where
  projections : List MonthlyProjection
  summary : Option ProjectionSummary
deriving DecidableEq, Repr

/-- Severity union type of SanityWarning (src/lib/types.ts:209). -/
inductive Severity where
  | low : Severity
  | medium : Severity
  | high : Severity
deriving DecidableEq, Repr

/-- SanityWarning (src/lib/types.ts:208-213). -/
structure SanityWarning where
  severity : Severity
  field : String
  message : String
  suggestion : Option String := none
deriving DecidableEq, Repr

/-- SanityCheckResult (src/lib/types.ts:203-206). -/
structure SanityCheckResult where
  passed : Bool
  warnings : List SanityWarning
deriving DecidableEq, Repr

/-- Lookup of a customMonthlyOverrides entry for a month:
overrides?.customMonthlyOverrides?.find((o) => o.monthOffset === monthIndex)
(src/unnamed/part_003:25-27 and 106-108). -/
def findCustomOverride (overrides : Option ScenarioOverrides) (monthIndex : ℕ) :
    Option CustomMonthlyOverride :=
  (overrides.bind (fun o => o.customMonthlyOverrides)).bind
    (fun l => l.find? (fun o => o.monthOffset == (monthIndex : ℤ)))

/-- Return value of calculateActiveCustomers. -/
structure CustomerResult where
  newCustomers : ℚ
  churnedCustomers : ℚ
  activeCustomers : ℚ
deriving DecidableEq, Repr

/-- calculateActiveCustomers (src/unnamed/part_003:14-56). The growth
multiplier is applied under the JavaScript truthiness test
if (overrides?.customerGrowthMultiplier), so a present multiplier equal to 0
is not applied; a custom override entry for the month that carries a
newCustomers value replaces the computed value; churned customers are
previousActive times churnRate; the resulting active count is floored at
zero by Math.max. -/
def calculateActiveCustomers (previousActiveCustomers : ℚ)
    (assumptions : AssumptionInput) (monthIndex : ℕ)
    (overrides : Option ScenarioOverrides) : CustomerResult :=
  let customOverride := findCustomOverride overrides monthIndex
  let newCustomersBase := assumptions.expectedNewCustomersPerMonth
  let newCustomersGrown :=
    match overrides.bind (fun o => o.customerGrowthMultiplier) with
    | some m => if m ≠ 0 then newCustomersBase * m else newCustomersBase
    | none => newCustomersBase
  let newCustomers :=
    match customOverride.bind (fun o => o.newCustomers) with
    | some v => v
    | none => newCustomersGrown
  let churnedCustomers := previousActiveCustomers * assumptions.churnRate
  let activeCustomers :=
    max 0 (previousActiveCustomers + newCustomers - churnedCustomers)
  { newCustomers := newCustomers, churnedCustomers := churnedCustomers,
    activeCustomers := activeCustomers }

/-- Return value of calculateRevenue. -/
structure RevenueResult where
  mrr : ℚ
  revenue : ℚ
deriving DecidableEq, Repr

/-- calculateRevenue (src/unnamed/part_003:61-78): base MRR plus expansion
revenue; revenue equals MRR in the monthly model. -/
def calculateRevenue (activeCustomers : ℚ) (assumptions : AssumptionInput) :
    RevenueResult :=
  let baseMRR := activeCustomers * assumptions.arpu
  let expansionRevenue := baseMRR * assumptions.expansionRevenueRate
  let mrr := baseMRR + expansionRevenue
  { mrr := mrr, revenue := mrr }

/-- Return value of calculateCosts. -/
structure CostResult where
  cogs : ℚ
  grossProfit : ℚ
  salaryCosts : ℚ
  fixedCosts : ℚ
  variableCosts : ℚ
  totalOpex : ℚ
deriving DecidableEq, Repr

/-- calculateCosts (src/unnamed/part_003:83-133). The fixed cost falls back
from the custom override through ?? (nullish coalescing, so an explicit 0
is kept); hiring plan items are active when
item.monthOffset <= monthIndex - delayMonths. -/
def calculateCosts (revenue : ℚ) (monthIndex : ℕ)
    (hiringPlan : List HiringPlanItemInput) (assumptions : AssumptionInput)
    (overrides : Option ScenarioOverrides) : CostResult :=
  let grossMarginDecimal := assumptions.grossMarginPercent / 100
  let cogs := revenue * (1 - grossMarginDecimal)
  let grossProfit := revenue - cogs
  let variableCosts := revenue * assumptions.variableCostPercentOfRevenue
  let customOverride := findCustomOverride overrides monthIndex
  let fixedCosts :=
    (customOverride.bind (fun o => o.fixedCosts)).getD assumptions.fixedCostsPerMonth
  let delayMonths := (overrides.bind (fun o => o.hiringDelayMonths)).getD 0
  let salaryMultiplier := (overrides.bind (fun o => o.salaryMultiplier)).getD 1
  let salaryCosts :=
    (hiringPlan.filter
        (fun item => decide (item.monthOffset ≤ (monthIndex : ℤ) - delayMonths))).foldl
      (fun sum item => sum + item.count * item.monthlySalaryPerHead * salaryMultiplier)
      0
  let totalOpex := cogs + variableCosts + fixedCosts + salaryCosts
  { cogs := cogs, grossProfit := grossProfit, salaryCosts := salaryCosts,
    fixedCosts := fixedCosts, variableCosts := variableCosts,
    totalOpex := totalOpex }

/-- calculateRunway (src/unnamed/part_003:138-146): 0 for non-positive cash,
null (none) for non-positive burn, the quotient otherwise, in that order. -/
def calculateRunway (currentCash monthlyBurn : ℚ) : Option ℚ :=
  if currentCash ≤ 0 then some 0
  else if monthlyBurn ≤ 0 then none
  else some (currentCash / monthlyBurn)

/-- calculateLTV (src/unnamed/part_003:162-165): Infinity when churn is 0. -/
def calculateLTV (arpu churnRate : ℚ) : JSNum :=
  if churnRate = 0 then .posInf else .num (arpu / churnRate)

/-- calculateLTVtoCAC (src/unnamed/part_003:170-173): Infinity when cac is 0. -/
def calculateLTVtoCAC (ltv : JSNum) (cac : ℚ) : JSNum :=
  if cac = 0 then .posInf else jsDiv ltv (.num cac)

/-- Integer padStart(2, "0") of formatMonth (src/lib/financeEngine/utils.ts:20). -/
def pad2 (n : ℕ) : String :=
  if n < 10 then "0" ++ toString n else toString n

/-- formatMonth (src/lib/financeEngine/utils.ts:18-22) on a year and a
1-based month. -/
def formatMonthYM (year : ℤ) (month1 : ℕ) : String :=
  toString year ++ "-" ++ pad2 month1

/-- Parse of a YYYY-MM label as addMonths does it: split on the dash and
convert the first two parts with Number. Labels whose parts are not plain
integers are rejected with none (in JavaScript they produce NaN and an
Invalid Date); no claim involves such a label. -/
def parseYM (s : String) : Option (ℤ × ℤ) :=
  match (s.splitOn "-").map (fun t => t.toInt?) with
  | some y :: some m :: _ => some (y, m)
  | _ => none

/-- addMonths (src/lib/financeEngine/utils.ts:8-13). The Date constructor
maps a year argument from 0 to 99 to 1900 + year (the ECMAScript two-digit
year rule, applied at construction only), and the constructor and setMonth
normalize an out-of-range month index by carrying whole years (floor
division), which fdiv and emod reproduce; the result is rendered by
formatMonth. An unparseable label renders as NaN-NaN, the formatMonth output
for an Invalid Date. -/
def addMonths (startMonth : String) (monthsToAdd : ℤ) : String :=
  match parseYM startMonth with
  | some (year, month) =>
    let yearAdjusted : ℤ := if 0 ≤ year ∧ year ≤ 99 then year + 1900 else year
    let total : ℤ := (month - 1) + monthsToAdd
    formatMonthYM (yearAdjusted + total.fdiv 12) ((total.emod 12).toNat + 1)
  | none => "NaN-NaN"

/-- applyScenarioOverrides (src/unnamed/part_004:119-146): multiplicative
and additive adjustments with defaults, the adjusted churn clamped into
[0, 1]; a missing overrides object passes the assumptions through
unchanged. -/
def applyScenarioOverrides (assumptions : AssumptionInput)
    (overrides : Option ScenarioOverrides) : AssumptionInput :=
  match overrides with
  | none => assumptions
  | some o =>
    { assumptions with
      arpu := assumptions.arpu * (o.arpuMultiplier.getD 1)
      churnRate :=
        max 0 (min 1 (assumptions.churnRate + o.churnRateAdjustment.getD 0))
      expansionRevenueRate :=
        assumptions.expansionRevenueRate + o.expansionRevenueRateAdjustment.getD 0
      grossMarginPercent :=
        assumptions.grossMarginPercent + o.grossMarginAdjustment.getD 0
      fixedCostsPerMonth :=
        assumptions.fixedCostsPerMonth * (o.fixedCostsMultiplier.getD 1)
      variableCostPercentOfRevenue :=
        assumptions.variableCostPercentOfRevenue * (o.variableCostMultiplier.getD 1) }

/-- calculateHeadcount (src/unnamed/part_004:151-161). -/
def calculateHeadcount (monthIndex : ℕ) (hiringPlan : List HiringPlanItemInput)
    (overrides : Option ScenarioOverrides) : ℚ :=
  let delayMonths := (overrides.bind (fun o => o.hiringDelayMonths)).getD 0
  (hiringPlan.filter
      (fun item => decide (item.monthOffset ≤ (monthIndex : ℤ) - delayMonths))).foldl
    (fun sum item => sum + item.count) 0

/-- The property access assumptions.startingMRR in runScenario
(src/unnamed/part_004:39). AssumptionInput (src/lib/types.ts:50-70) declares
no startingMRR field, and every caller builds the assumptions argument from
exactly the declared fields (src/app/api/assistant/route.ts:227-243), so in
JavaScript the access evaluates to undefined. -/
def assumptionsStartingMRR (_assumptions : AssumptionInput) : JSNum := .undefined

/-- The initializer assumptions.startingMRR / assumptions.arpu || 0 of
runScenario (src/unnamed/part_004:39). Since the dividend is undefined the
division is NaN, which is falsy, so the initializer always evaluates to 0. -/
def initialActiveCustomers (assumptions : AssumptionInput) : ℚ :=
  jsOrElse (jsDiv (assumptionsStartingMRR assumptions) (.num assumptions.arpu)) 0

/-- One iteration of the projection loop of runScenario
(src/unnamed/part_004:42-104): the month label, the customer transition,
revenue, costs, cash flow, runway and headcount of one month, assembled into
the MonthlyProjection record. -/
def monthProjection (assumptions effectiveAssumptions : AssumptionInput)
    (hiringPlan : List HiringPlanItemInput)
    (scenarioOverrides : Option ScenarioOverrides) (monthIndex : ℕ)
    (currentCash currentActiveCustomers : ℚ) : MonthlyProjection :=
  let month := addMonths assumptions.startMonth (monthIndex : ℤ)
  let customers := calculateActiveCustomers currentActiveCustomers
    effectiveAssumptions monthIndex scenarioOverrides
  let rev := calculateRevenue customers.activeCustomers effectiveAssumptions
  let costs := calculateCosts rev.revenue monthIndex hiringPlan
    effectiveAssumptions scenarioOverrides
  let netBurn := costs.totalOpex - rev.revenue
  let startingCash := currentCash
  let endingCash := startingCash - netBurn
  let runwayMonths := calculateRunway endingCash netBurn
  let headcount := calculateHeadcount monthIndex hiringPlan scenarioOverrides
  { monthIndex := monthIndex, month := month, startingCash := startingCash,
    endingCash := endingCash, netBurn := netBurn, runwayMonths := runwayMonths,
    newCustomers := customers.newCustomers,
    churnedCustomers := customers.churnedCustomers,
    activeCustomers := customers.activeCustomers,
    mrr := rev.mrr, revenue := rev.revenue, cogs := costs.cogs,
    grossProfit := costs.grossProfit, salaryCosts := costs.salaryCosts,
    fixedCosts := costs.fixedCosts, variableCosts := costs.variableCosts,
    totalOpex := costs.totalOpex, headcount := headcount }

/-- The projection loop of runScenario (src/unnamed/part_004:42-108),
written as structural recursion on the number of remaining months: each
month appends its record and threads ending cash and active customers into
the next month. -/
def projectMonths (assumptions effectiveAssumptions : AssumptionInput)
    (hiringPlan : List HiringPlanItemInput)
    (scenarioOverrides : Option ScenarioOverrides) :
    ℕ → ℕ → ℚ → ℚ → List MonthlyProjection
  | 0, _, _, _ => []
  | n + 1, monthIndex, currentCash, currentActiveCustomers =>
    let p := monthProjection assumptions effectiveAssumptions hiringPlan
      scenarioOverrides monthIndex currentCash currentActiveCustomers
    p :: projectMonths assumptions effectiveAssumptions hiringPlan
      scenarioOverrides n (monthIndex + 1) p.endingCash p.activeCustomers

/-- Insertion into a list held in descending netBurn order. The element
being inserted comes from earlier in the original list than everything
already inserted (the sort is a right fold), so stability demands it go
before every element whose netBurn is less than or equal to its own. -/
def insertByNetBurnDesc (p : MonthlyProjection) :
    List MonthlyProjection → List MonthlyProjection
  | [] => [p]
  | q :: qs =>
    if q.netBurn ≤ p.netBurn then p :: q :: qs else q :: insertByNetBurnDesc p qs

/-- Model of .sort((a, b) => b.netBurn - a.netBurn)
(src/unnamed/part_004:178-180): a stable sort by descending netBurn
(Array.prototype.sort is stable, so months with equal netBurn keep their
chronological order), as a right fold of insertions that place each element
before its ties. -/
def sortByNetBurnDesc (l : List MonthlyProjection) : List MonthlyProjection :=
  l.foldr insertByNetBurnDesc []

/-- generateSummary (src/unnamed/part_004:166-235). The empty-input throw is
modelled by none. The scenarioName literal "BASE" reproduces the
"BASE" as any of the source. -/
def generateSummary (projections : List MonthlyProjection)
    (assumptions : AssumptionInput) : Option ProjectionSummary :=
  match projections with
  | [] => none
  | first :: rest =>
    let ps := first :: rest
    let last := ps.getLast (List.cons_ne_nil first rest)
    let burnProjections :=
      sortByNetBurnDesc (ps.filter (fun p => decide (0 < p.netBurn)))
    let peakBurnProjection :=
      match burnProjections with
      | [] => last
      | b :: _ => b
    let totalRevenue := ps.foldl (fun sum p => sum + p.revenue) 0
    let totalBurn := ps.foldl (fun sum p => sum + max 0 p.netBurn) 0
    let avgMonthlyBurn :=
      if 0 < burnProjections.length then
        (burnProjections.foldl (fun sum p => sum + p.netBurn) 0) /
          (burnProjections.length : ℚ)
      else 0
    let zeroCashProjection := ps.find? (fun p => decide (p.endingCash ≤ 0))
    let validRunways := ps.filterMap (fun p => p.runwayMonths)
    let minRunway :=
      match validRunways with
      | [] => none
      | r :: rs => some (rs.foldl min r)
    let mrrGrowth :=
      if 0 < first.mrr then ((last.mrr - first.mrr) / first.mrr) * 100 else 0
    let avgMRR := (ps.foldl (fun sum p => sum + p.mrr) 0) / (ps.length : ℚ)
    let avgChurnRate := assumptions.churnRate
    let ltv := if 0 < avgChurnRate then some (avgMRR / avgChurnRate) else none
    some
      { scenarioName := "BASE", startingMRR := first.mrr, endingMRR := last.mrr,
        mrrGrowthPercent := mrrGrowth, peakBurn := peakBurnProjection.netBurn,
        peakBurnMonth := peakBurnProjection.month,
        avgMonthlyBurn := avgMonthlyBurn, startingCash := first.startingCash,
        endingCash := last.endingCash, totalCashBurned := totalBurn,
        zeroCashMonth := zeroCashProjection.map (fun p => p.month),
        minRunway := minRunway, totalRevenue := totalRevenue,
        startingHeadcount := first.headcount,
        endingHeadcount := last.headcount, ltv := ltv,
        cacPaybackMonths := assumptions.paybackPeriodMonths }

/-- runScenario (src/unnamed/part_004:27-114): apply the scenario overlay
once, initialize cash and the implied starting customer count, run the
monthly loop, and attach the summary generated from the base assumptions. -/
def runScenario (input : FinancialModelInput) : FinancialModelOutput :=
  let effectiveAssumptions :=
    applyScenarioOverrides input.assumptions input.scenarioOverrides
  let currentCash := input.company.startingCash
  let currentActiveCustomers := initialActiveCustomers input.assumptions
  let projections := projectMonths input.assumptions effectiveAssumptions
    input.hiringPlan input.scenarioOverrides input.assumptions.months 0
    currentCash currentActiveCustomers
  { projections := projections,
    summary := generateSummary projections input.assumptions }

/-- The warning list runSanityChecks accumulates (src/unnamed/part_002:20-150),
check by check in source order. Each check appends its warnings
independently of the others. -/
def sanityWarnings (company : CompanyInput) (assumptions : AssumptionInput) :
    List SanityWarning :=
  let warnings : List SanityWarning := []
  let warnings :=
    if assumptions.churnRate < 0 ∨ 1 < assumptions.churnRate then
      warnings ++ [⟨.high, "churnRate", "Churn rate must be between 0 and 1 (0% to 100%)", some "Typical SaaS churn rates are 3-7% monthly for SMB, 0.5-1% for enterprise"⟩]
    else if 0.15 < assumptions.churnRate then
      warnings ++ [⟨.medium, "churnRate", "Churn rate is unusually high (>15% monthly)", some "Consider if this is realistic for your business model"⟩]
    else warnings
  let warnings :=
    if assumptions.arpu ≤ 0 then
      warnings ++ [⟨.high, "arpu", "ARPU (Average Revenue Per User) must be positive", none⟩]
    else if assumptions.arpu < 10 then
      warnings ++ [⟨.low, "arpu", "ARPU is very low (<$10)", some "Verify this matches your pricing model"⟩]
    else warnings
  let warnings :=
    if assumptions.cac ≤ 0 ∧ 0 < assumptions.paybackPeriodMonths then
      warnings ++ [⟨.medium, "cac", "CAC is zero but payback period is set", some "Either set a realistic CAC or set payback to 0"⟩]
    else warnings
  let warnings :=
    if 0 < assumptions.cac ∧ 0 < assumptions.churnRate then
      let ltv := calculateLTV assumptions.arpu assumptions.churnRate
      let ltvToCac := calculateLTVtoCAC ltv assumptions.cac
      if jsLt ltvToCac 3 then
        warnings ++ [⟨.high, "cac", "LTV:CAC ratio is " ++ jsToFixed1 ltvToCac ++ " (< 3:1)", some "Healthy SaaS businesses typically have LTV:CAC > 3. Consider reducing CAC or improving retention."⟩]
      else warnings
    else warnings
  let warnings :=
    if 24 < assumptions.paybackPeriodMonths then
      warnings ++ [⟨.medium, "paybackPeriodMonths", "CAC payback period is > 24 months", some "Target payback period is typically 12-18 months for healthy SaaS"⟩]
    else warnings
  let warnings :=
    if assumptions.grossMarginPercent < 0 ∨ 100 < assumptions.grossMarginPercent then
      warnings ++ [⟨.high, "grossMarginPercent", "Gross margin must be between 0% and 100%", none⟩]
    else if assumptions.grossMarginPercent < 50 then
      warnings ++ [⟨.medium, "grossMarginPercent", "Gross margin is below 50%", some "Typical SaaS gross margins are 70-85%"⟩]
    else warnings
  let estimatedMonthlyBurn := assumptions.fixedCostsPerMonth +
    assumptions.expectedNewCustomersPerMonth * assumptions.cac
  let estimatedRunway :=
    jsDiv (.num company.startingCash) (.num estimatedMonthlyBurn)
  let warnings :=
    if jsLt estimatedRunway 6 then
      warnings ++ [⟨.high, "startingCash", "Estimated runway is " ++ jsToFixed1 estimatedRunway ++ " months (< 6 months)", some "Consider raising more capital or reducing burn"⟩]
    else if jsLt estimatedRunway 12 then
      warnings ++ [⟨.medium, "startingCash", "Estimated runway is " ++ jsToFixed1 estimatedRunway ++ " months (< 12 months)", some "Start planning your next fundraise"⟩]
    else warnings
  let warnings :=
    if assumptions.expectedNewCustomersPerMonth < 0 then
      warnings ++ [⟨.high, "expectedNewCustomersPerMonth", "Expected new customers cannot be negative", none⟩]
    else warnings
  let warnings :=
    if assumptions.expansionRevenueRate < 0 ∨ 1 < assumptions.expansionRevenueRate then
      warnings ++ [⟨.medium, "expansionRevenueRate", "Expansion revenue rate should be between 0 and 1 (0% to 100%)", some "Typical expansion rates are 5-25% annually for strong SaaS companies"⟩]
    else warnings
  warnings

/-- runSanityChecks (src/unnamed/part_002:16-156): the warning list together
with passed, which holds exactly when the list has no high severity entry. -/
def runSanityChecks (company : CompanyInput) (assumptions : AssumptionInput) :
    SanityCheckResult :=
  { passed := decide
      (((sanityWarnings company assumptions).filter
        (fun w => decide (w.severity = Severity.high))).length = 0),
    warnings := sanityWarnings company assumptions }

/-- One min/max/target range of the benchmark table. -/
structure BenchmarkRange where
  min : ℚ
  max : ℚ
  target : ℚ
deriving DecidableEq, Repr

/-- One stage tier of the benchmark table (src/unnamed/part_002:162-181). -/
structure StageBenchmarks where
  churnRate : BenchmarkRange
  grossMargin : BenchmarkRange
  ltvToCac : BenchmarkRange
  paybackMonths : BenchmarkRange
deriving DecidableEq, Repr

/-- The PRE_SEED tier (src/unnamed/part_002:163-168). -/
def preSeedBenchmarks : StageBenchmarks :=
  { churnRate := { min := 0.03, max := 0.1, target := 0.05 },
    grossMargin := { min := 60, max := 85, target := 75 },
    ltvToCac := { min := 2, max := 5, target := 3 },
    paybackMonths := { min := 6, max := 18, target := 12 } }

/-- The SEED tier (src/unnamed/part_002:169-174). -/
def seedBenchmarks : StageBenchmarks :=
  { churnRate := { min := 0.02, max := 0.07, target := 0.04 },
    grossMargin := { min := 65, max := 85, target := 78 },
    ltvToCac := { min := 3, max := 6, target := 4 },
    paybackMonths := { min := 6, max := 15, target := 10 } }

/-- The SERIES_A tier (src/unnamed/part_002:175-180). -/
def seriesABenchmarks : StageBenchmarks :=
  { churnRate := { min := 0.01, max := 0.05, target := 0.03 },
    grossMargin := { min := 70, max := 90, target := 80 },
    ltvToCac := { min := 3, max := 7, target := 5 },
    paybackMonths := { min := 6, max := 12, target := 9 } }

/-- What the untyped lookup benchmarks[stage] || benchmarks.SEED can
produce: one of the three benchmark tiers, or a member inherited from
Object.prototype. The declared return type of getBenchmarks is any, so
TypeScript accepts both. -/
inductive BenchmarkLookup where
  | tier : StageBenchmarks → BenchmarkLookup
  | protoMember : String → BenchmarkLookup
deriving DecidableEq, Repr

/-- The property names a plain object literal inherits from
Object.prototype: JavaScript bracket lookup consults the prototype chain,
and each of these resolves to a function or an object, which is truthy.
The first eight are required by the ECMAScript core, the last four by
Annex B and present in every mainstream engine, Node included. -/
def objectPrototypeKeys : List String :=
  ["constructor", "hasOwnProperty", "isPrototypeOf", "propertyIsEnumerable",
   "toLocaleString", "toString", "valueOf", "__proto__",
   "__defineGetter__", "__defineSetter__", "__lookupGetter__",
   "__lookupSetter__"]

/-- getBenchmarks (src/unnamed/part_002:161-184). benchmarks[stage] first
resolves against the own keys of the record literal (the three stage
names); failing that, JavaScript consults the prototype chain, so a key of
Object.prototype yields the inherited member, which is truthy and is
therefore returned by || as it stands; only for every remaining key does
the lookup give undefined and || fall back to the SEED tier. -/
def getBenchmarks (stage : String) : BenchmarkLookup :=
  if stage = "PRE_SEED" then .tier preSeedBenchmarks
  else if stage = "SEED" then .tier seedBenchmarks
  else if stage = "SERIES_A" then .tier seriesABenchmarks
  else if stage ∈ objectPrototypeKeys then .protoMember stage
  else .tier seedBenchmarks

/-! ## General lemmas about the projection loop -/

/-- The loop emits exactly one record per remaining month. -/
theorem projectMonths_length (a ea : AssumptionInput)
    (hp : List HiringPlanItemInput) (o : Option ScenarioOverrides) :
    ∀ (n idx : ℕ) (cash cust : ℚ),
      (projectMonths a ea hp o n idx cash cust).length = n := by
  intro n
  induction n with
  | zero => intro idx cash cust; rfl
  | succ n ih =>
    intro idx cash cust
    simp only [projectMonths, List.length_cons, ih]

/-- The record at position i of the loop output is the month record of
month idx + i, for some threaded state. -/
theorem projectMonths_get_shape (a ea : AssumptionInput)
    (hp : List HiringPlanItemInput) (o : Option ScenarioOverrides) :
    ∀ (n idx : ℕ) (cash cust : ℚ) (i : ℕ)
      (h : i < (projectMonths a ea hp o n idx cash cust).length),
      ∃ c u, (projectMonths a ea hp o n idx cash cust).get ⟨i, h⟩ =
        monthProjection a ea hp o (idx + i) c u := by
  intro n
  induction n with
  | zero =>
    intro idx cash cust i h
    simp [projectMonths] at h
  | succ n ih =>
    intro idx cash cust i h
    match i with
    | 0 => exact ⟨cash, cust, by simp [projectMonths]⟩
    | i + 1 =>
      have h2 : i < (projectMonths a ea hp o n (idx + 1)
          (monthProjection a ea hp o idx cash cust).endingCash
          (monthProjection a ea hp o idx cash cust).activeCustomers).length := by
        have := h
        simp only [projectMonths, List.length_cons] at this
        exact Nat.lt_of_succ_lt_succ this
      obtain ⟨c, u, hc⟩ := ih (idx + 1)
        (monthProjection a ea hp o idx cash cust).endingCash
        (monthProjection a ea hp o idx cash cust).activeCustomers i h2
      refine ⟨c, u, ?_⟩
      have harith : idx + 1 + i = idx + (i + 1) := by omega
      simp only [projectMonths, List.get_cons_succ]
      rw [hc, harith]

/-- Head of the loop output for a positive number of months. -/
theorem projectMonths_head (a ea : AssumptionInput)
    (hp : List HiringPlanItemInput) (o : Option ScenarioOverrides)
    (n idx : ℕ) (cash cust : ℚ) :
    (projectMonths a ea hp o (n + 1) idx cash cust).head? =
      some (monthProjection a ea hp o idx cash cust) := by
  simp [projectMonths]

/-- Every record the loop emits is a month record. -/
theorem projectMonths_mem_shape (a ea : AssumptionInput)
    (hp : List HiringPlanItemInput) (o : Option ScenarioOverrides) :
    ∀ (n idx : ℕ) (cash cust : ℚ) (p : MonthlyProjection),
      p ∈ projectMonths a ea hp o n idx cash cust →
      ∃ mi c u, p = monthProjection a ea hp o mi c u := by
  intro n
  induction n with
  | zero =>
    intro idx cash cust p hp2
    simp [projectMonths] at hp2
  | succ n ih =>
    intro idx cash cust p hp2
    simp only [projectMonths, List.mem_cons] at hp2
    rcases hp2 with h | h
    · exact ⟨idx, cash, cust, h⟩
    · exact ih _ _ _ p h

/-! ## Claim theorems -/

/-- The concrete scenario of the spec (section 8): 24 months from 2024-01,
arpu 100, 10 expected new customers, 5 percent churn and expansion, 80
percent gross margin, 15000 fixed costs, 10 percent variable costs, 500000
starting cash, 10000 starting MRR, 3 engineers from month 0 and 2 sales
reps from month 6. -/
def specCompany : CompanyInput :=
  { name := "Test Startup", stage := "SEED", sector := "SAAS", country := "US",
    currency := "USD", startingCash := 500000, startingMRR := 10000,
    currentHeadcount := 5 }

/-- Assumption set of the concrete scenario of the spec. -/
def specAssumptions : AssumptionInput :=
  { name := "Base Case", startMonth := "2024-01", months := 24,
    pricingModel := "PER_SEAT", arpu := 100, expectedNewCustomersPerMonth := 10,
    expansionRevenueRate := 0.05, churnRate := 0.05, cac := 500,
    paybackPeriodMonths := 12, grossMarginPercent := 80,
    fixedCostsPerMonth := 15000, variableCostPercentOfRevenue := 0.1 }

/-- Hiring plan of the concrete scenario of the spec. -/
def specHiringPlan : List HiringPlanItemInput :=
  [⟨0, "Engineer", 3, 10000, "ENGINEERING"⟩, ⟨6, "Sales Rep", 2, 8000, "SALES"⟩]

/-- Full input of the concrete scenario of the spec. -/
def specInput : FinancialModelInput :=
  { company := specCompany, assumptions := specAssumptions,
    hiringPlan := specHiringPlan, scenarioOverrides := none }

/-- C1: the claim says the starting active customer count is
company.startingMRR / assumptions.arpu when arpu is positive, 100 for the
concrete scenario of the spec, with month-0 mrr 10500. The code instead
reads assumptions.startingMRR, a field AssumptionInput does not declare, so
the initializer is NaN || 0 = 0 for every input: on the concrete scenario
of the spec, month 0 starts from 0 active customers and ends with 10 active
customers and mrr 1050, not the 100 customers and mrr 10500 the claim
derives. -/
theorem C1_starting_customers_bug :
    initialActiveCustomers specAssumptions = 0 ∧
    specCompany.startingMRR / specAssumptions.arpu = 100 ∧
    (runScenario specInput).projections.head?.map
      (fun p => (p.activeCustomers, p.mrr)) = some (10, 1050) ∧
    (1050 : ℚ) ≠ 100 * 100 * 1.05 := by
  refine ⟨?_, ?_, ?_, ?_⟩
  · norm_num [initialActiveCustomers, assumptionsStartingMRR, jsDiv, jsOrElse]
  · norm_num [specCompany, specAssumptions]
  · have h := projectMonths_head specInput.assumptions
      (applyScenarioOverrides specInput.assumptions specInput.scenarioOverrides)
      specInput.hiringPlan specInput.scenarioOverrides 23 0
      specInput.company.startingCash
      (initialActiveCustomers specInput.assumptions)
    simp only [runScenario]
    rw [show specInput.assumptions.months = 23 + 1 from rfl]
    rw [h]
    norm_num [monthProjection, specInput, specAssumptions, specCompany,
      specHiringPlan, initialActiveCustomers, assumptionsStartingMRR, jsDiv,
      jsOrElse, applyScenarioOverrides, calculateActiveCustomers,
      calculateRevenue, calculateCosts, calculateHeadcount, calculateRunway,
      findCustomOverride]
  · norm_num

/-- C2: every emitted month record carries runwayMonths equal to
calculateRunway of its ending cash and net burn: some 0 when ending cash is
non-positive, none when ending cash is positive and net burn is
non-positive, and the quotient when both are positive. -/
theorem C2_runway_sentinels (input : FinancialModelInput)
    (p : MonthlyProjection) (hmem : p ∈ (runScenario input).projections) :
    p.runwayMonths = calculateRunway p.endingCash p.netBurn ∧
    (p.endingCash ≤ 0 → p.runwayMonths = some 0) ∧
    (0 < p.endingCash → p.netBurn ≤ 0 → p.runwayMonths = none) ∧
    (0 < p.endingCash → 0 < p.netBurn →
      p.runwayMonths = some (p.endingCash / p.netBurn)) := by
  have hshape := projectMonths_mem_shape input.assumptions
    (applyScenarioOverrides input.assumptions input.scenarioOverrides)
    input.hiringPlan input.scenarioOverrides input.assumptions.months 0
    input.company.startingCash (initialActiveCustomers input.assumptions) p hmem
  obtain ⟨mi, c, u, rfl⟩ := hshape
  have hrw : (monthProjection input.assumptions
      (applyScenarioOverrides input.assumptions input.scenarioOverrides)
      input.hiringPlan input.scenarioOverrides mi c u).runwayMonths =
      calculateRunway (monthProjection input.assumptions
        (applyScenarioOverrides input.assumptions input.scenarioOverrides)
        input.hiringPlan input.scenarioOverrides mi c u).endingCash
        (monthProjection input.assumptions
          (applyScenarioOverrides input.assumptions input.scenarioOverrides)
          input.hiringPlan input.scenarioOverrides mi c u).netBurn := rfl
  refine ⟨hrw, ?_, ?_, ?_⟩
  · intro h
    rw [hrw]
    simp [calculateRunway, h]
  · intro h1 h2
    rw [hrw]
    simp [calculateRunway, not_le.mpr h1, h2]
  · intro h1 h2
    rw [hrw]
    simp [calculateRunway, not_le.mpr h1, not_le.mpr h2]

/-- Input for the C2 witness: one month, no revenue, 15000 fixed costs and
no starting cash, so month 0 ends with negative cash. -/
def cw2Assumptions : AssumptionInput :=
  { name := "w2", startMonth := "2024-01", months := 1,
    pricingModel := "FLAT_RATE", arpu := 0, expectedNewCustomersPerMonth := 0,
    expansionRevenueRate := 0, churnRate := 0, cac := 0,
    paybackPeriodMonths := 0, grossMarginPercent := 100,
    fixedCostsPerMonth := 15000, variableCostPercentOfRevenue := 0 }

/-- Company for the C2 witness. -/
def cw2Company : CompanyInput :=
  { name := "w2", stage := "SEED", sector := "SAAS", country := "US",
    currency := "USD", startingCash := 0, startingMRR := 0,
    currentHeadcount := 0 }

/-- Full input for the C2 witness. -/
def cw2Input : FinancialModelInput :=
  { company := cw2Company, assumptions := cw2Assumptions, hiringPlan := [],
    scenarioOverrides := none }

/-- The single month record the C2 witness input produces. -/
def cw2Proj : MonthlyProjection :=
  monthProjection cw2Assumptions cw2Assumptions [] none 0 0 0

/-- C2 witness: on the concrete one-month input the emitted record has
non-positive ending cash and the theorem yields runwayMonths = some 0. -/
theorem C2_runway_sentinels_witness : cw2Proj.runwayMonths = some 0 := by
  have hmem : cw2Proj ∈ (runScenario cw2Input).projections := by
    rw [show (runScenario cw2Input).projections = [cw2Proj] from rfl]
    exact List.mem_singleton.mpr rfl
  have h := C2_runway_sentinels cw2Input cw2Proj hmem
  refine h.2.1 ?_
  norm_num [cw2Proj, monthProjection, cw2Assumptions, calculateActiveCustomers,
    calculateRevenue, calculateCosts, calculateHeadcount, findCustomOverride]

/-- Assumption set for the C3 counterexample: five expected new customers. -/
def c3Assumptions : AssumptionInput :=
  { name := "c3", startMonth := "2024-01", months := 1,
    pricingModel := "PER_SEAT", arpu := 0, expectedNewCustomersPerMonth := 5,
    expansionRevenueRate := 0, churnRate := 0, cac := 0,
    paybackPeriodMonths := 0, grossMarginPercent := 100,
    fixedCostsPerMonth := 0, variableCostPercentOfRevenue := 0 }

/-- Overrides for the C3 counterexample: a present growth multiplier of 0. -/
def c3Overrides : ScenarioOverrides := { customerGrowthMultiplier := some 0 }

/-- C3 counterexample: with a present customerGrowthMultiplier equal to 0
and no custom override, the claim says newCustomers =
expectedNewCustomersPerMonth times the multiplier, that is 5 times 0 = 0;
the code leaves the 0 multiplier unapplied (JavaScript truthiness) and
returns 5. -/
theorem C3_new_customers_counterexample :
    ¬ ((calculateActiveCustomers 0 c3Assumptions 0 (some c3Overrides)).newCustomers =
      c3Assumptions.expectedNewCustomersPerMonth * 0) := by
  norm_num [calculateActiveCustomers, findCustomOverride, c3Assumptions,
    c3Overrides]

/-- C3 amended: newCustomers is expectedNewCustomersPerMonth times the
growth multiplier when the multiplier is present and nonzero, and
expectedNewCustomersPerMonth unchanged when the multiplier is absent or
zero (the source applies it under a JavaScript truthiness test); a custom
override entry for the month carrying newCustomers replaces that value
exactly; churnedCustomers is previousActive times churnRate; and
activeCustomers is max 0 (previousActive + new - churned), hence never
negative. -/
theorem C3_new_customers_amended (prev : ℚ) (a : AssumptionInput) (idx : ℕ)
    (o : Option ScenarioOverrides) :
    ((findCustomOverride o idx).bind (fun e => e.newCustomers) = none →
      ((o.bind (fun s => s.customerGrowthMultiplier) = none ∨
          o.bind (fun s => s.customerGrowthMultiplier) = some 0) →
        (calculateActiveCustomers prev a idx o).newCustomers =
          a.expectedNewCustomersPerMonth) ∧
      (∀ m, o.bind (fun s => s.customerGrowthMultiplier) = some m → m ≠ 0 →
        (calculateActiveCustomers prev a idx o).newCustomers =
          a.expectedNewCustomersPerMonth * m)) ∧
    (∀ v, (findCustomOverride o idx).bind (fun e => e.newCustomers) = some v →
      (calculateActiveCustomers prev a idx o).newCustomers = v) ∧
    (calculateActiveCustomers prev a idx o).churnedCustomers =
      prev * a.churnRate ∧
    (calculateActiveCustomers prev a idx o).activeCustomers =
      max 0 (prev + (calculateActiveCustomers prev a idx o).newCustomers -
        (calculateActiveCustomers prev a idx o).churnedCustomers) ∧
    0 ≤ (calculateActiveCustomers prev a idx o).activeCustomers := by
  refine ⟨?_, ?_, rfl, rfl, le_max_left 0 _⟩
  · intro hnone
    constructor
    · intro hm
      rcases hm with h | h
      · simp [calculateActiveCustomers, hnone, h]
      · simp [calculateActiveCustomers, hnone, h]
    · intro m hm hm0
      simp [calculateActiveCustomers, hnone, hm, hm0]
  · intro v hv
    simp [calculateActiveCustomers, hv]

/-- C4: for a horizon of at least one month the projection list has length
exactly assumptions.months, and the record at position i carries
monthIndex i and the label of startMonth advanced by i months. -/
theorem C4_projection_length_and_order (input : FinancialModelInput)
    (hm : 1 ≤ input.assumptions.months) :
    (runScenario input).projections.length = input.assumptions.months ∧
    ∀ (i : ℕ) (h : i < (runScenario input).projections.length),
      ((runScenario input).projections.get ⟨i, h⟩).monthIndex = i ∧
      ((runScenario input).projections.get ⟨i, h⟩).month =
        addMonths input.assumptions.startMonth (i : ℤ) := by
  refine ⟨projectMonths_length input.assumptions
    (applyScenarioOverrides input.assumptions input.scenarioOverrides)
    input.hiringPlan input.scenarioOverrides input.assumptions.months 0
    input.company.startingCash (initialActiveCustomers input.assumptions), ?_⟩
  intro i h
  obtain ⟨c, u, hc⟩ := projectMonths_get_shape input.assumptions
    (applyScenarioOverrides input.assumptions input.scenarioOverrides)
    input.hiringPlan input.scenarioOverrides input.assumptions.months 0
    input.company.startingCash (initialActiveCustomers input.assumptions) i h
  rw [show (runScenario input).projections.get ⟨i, h⟩ =
    monthProjection input.assumptions
      (applyScenarioOverrides input.assumptions input.scenarioOverrides)
      input.hiringPlan input.scenarioOverrides (0 + i) c u from hc]
  constructor
  · simp [monthProjection]
  · simp [monthProjection]

/-- Assumption set for the C4 witness: two months from 2024-01. -/
def cw4Assumptions : AssumptionInput :=
  { name := "w4", startMonth := "2024-01", months := 2,
    pricingModel := "PER_SEAT", arpu := 1, expectedNewCustomersPerMonth := 1,
    expansionRevenueRate := 0, churnRate := 0, cac := 0,
    paybackPeriodMonths := 0, grossMarginPercent := 100,
    fixedCostsPerMonth := 0, variableCostPercentOfRevenue := 0 }

/-- Full input for the C4 witness. -/
def cw4Input : FinancialModelInput :=
  { company := cw2Company, assumptions := cw4Assumptions, hiringPlan := [],
    scenarioOverrides := none }

/-- C4 witness: the two-month input satisfies the horizon hypothesis and
the theorem applies to it. -/
theorem C4_projection_length_and_order_witness :
    (runScenario cw4Input).projections.length = cw4Input.assumptions.months ∧
    ∀ (i : ℕ) (h : i < (runScenario cw4Input).projections.length),
      ((runScenario cw4Input).projections.get ⟨i, h⟩).monthIndex = i ∧
      ((runScenario cw4Input).projections.get ⟨i, h⟩).month =
        addMonths cw4Input.assumptions.startMonth (i : ℤ) :=
  C4_projection_length_and_order cw4Input (by decide)

/-- The empty overrides object: every optional field absent. -/
def emptyOverrides : ScenarioOverrides := {}

/-- The overlay applied to the empty overrides object returns the
assumptions unchanged, provided the churn rate already lies in [0, 1]
(the overlay re-clamps churn even when no adjustment is present). -/
theorem applyScenarioOverrides_emptyOverrides (a : AssumptionInput)
    (h0 : 0 ≤ a.churnRate) (h1 : a.churnRate ≤ 1) :
    applyScenarioOverrides a (some emptyOverrides) = a := by
  cases a with
  | mk nm sm ms pm arpu enc err cr cac pp gm fc vc =>
    simp [applyScenarioOverrides, emptyOverrides,
      min_eq_right (show cr ≤ 1 from h1), max_eq_right (show 0 ≤ cr from h0)]

/-- A month record does not distinguish the empty overrides object from an
absent one: every read of the overrides defaults identically. -/
theorem monthProjection_emptyOverrides (a ea : AssumptionInput)
    (hp : List HiringPlanItemInput) (mi : ℕ) (c u : ℚ) :
    monthProjection a ea hp (some emptyOverrides) mi c u =
      monthProjection a ea hp none mi c u := rfl

/-- The projection loop does not distinguish the empty overrides object
from an absent one. -/
theorem projectMonths_emptyOverrides (a ea : AssumptionInput)
    (hp : List HiringPlanItemInput) :
    ∀ (n idx : ℕ) (cash cust : ℚ),
      projectMonths a ea hp (some emptyOverrides) n idx cash cust =
        projectMonths a ea hp none n idx cash cust := by
  intro n
  induction n with
  | zero => intro idx cash cust; rfl
  | succ n ih =>
    intro idx cash cust
    simp only [projectMonths]
    rw [monthProjection_emptyOverrides, ih]

/-- Assumption set for the C5 counterexample, with a churn rate of 2,
outside [0, 1]. -/
def c5Assumptions : AssumptionInput :=
  { name := "c5", startMonth := "2024-01", months := 2,
    pricingModel := "PER_SEAT", arpu := 1, expectedNewCustomersPerMonth := 1,
    expansionRevenueRate := 0, churnRate := 2, cac := 0,
    paybackPeriodMonths := 0, grossMarginPercent := 100,
    fixedCostsPerMonth := 0, variableCostPercentOfRevenue := 0 }

/-- Company for the C5 counterexample. -/
def c5Company : CompanyInput :=
  { name := "c5", stage := "SEED", sector := "SAAS", country := "US",
    currency := "USD", startingCash := 0, startingMRR := 0,
    currentHeadcount := 0 }

/-- The C5 input with the empty overrides object. -/
def c5InputEmpty : FinancialModelInput :=
  { company := c5Company, assumptions := c5Assumptions, hiringPlan := [],
    scenarioOverrides := some emptyOverrides }

/-- The C5 input with overrides omitted. -/
def c5InputNone : FinancialModelInput :=
  { company := c5Company, assumptions := c5Assumptions, hiringPlan := [],
    scenarioOverrides := none }

/-- C5 counterexample: with churnRate = 2 the empty overrides object is
observable, because the overlay clamps the churn rate to 1 while the
no-overrides path leaves it at 2: month 1 keeps 1 active customer under
the empty object but drops to 0 without it, so the projections differ. -/
theorem C5_empty_overrides_counterexample :
    ¬ ((runScenario c5InputEmpty).projections =
      (runScenario c5InputNone).projections) := by
  intro h
  have h2 := congrArg (fun l => l.map (fun p => p.activeCustomers)) h
  norm_num [runScenario, projectMonths, monthProjection, c5InputEmpty,
    c5InputNone, c5Company, c5Assumptions, emptyOverrides,
    initialActiveCustomers, assumptionsStartingMRR, jsDiv, jsOrElse,
    applyScenarioOverrides, calculateActiveCustomers, calculateRevenue,
    calculateCosts, calculateHeadcount, calculateRunway,
    findCustomOverride] at h2

/-- C5 amended: passing the empty overrides object produces projections
identical to omitting overrides entirely, provided the base churn rate
lies in [0, 1] (the declared invariant of the data model); outside that
range the empty object clamps churn and the outputs differ, as the
counterexample shows. -/
theorem C5_empty_overrides_amended (company : CompanyInput)
    (a : AssumptionInput) (hp : List HiringPlanItemInput)
    (h0 : 0 ≤ a.churnRate) (h1 : a.churnRate ≤ 1) :
    (runScenario
      { company := company, assumptions := a, hiringPlan := hp,
        scenarioOverrides := some emptyOverrides }).projections =
    (runScenario
      { company := company, assumptions := a, hiringPlan := hp,
        scenarioOverrides := none }).projections := by
  simp only [runScenario]
  rw [applyScenarioOverrides_emptyOverrides a h0 h1]
  rw [projectMonths_emptyOverrides]
  rfl

/-- C5 witness: a valid churn rate satisfies the amended hypotheses. -/
theorem C5_empty_overrides_witness :
    (runScenario
      { company := c5Company, assumptions := cw4Assumptions,
        hiringPlan := [], scenarioOverrides := some emptyOverrides }).projections =
    (runScenario
      { company := c5Company, assumptions := cw4Assumptions,
        hiringPlan := [], scenarioOverrides := none }).projections :=
  C5_empty_overrides_amended c5Company cw4Assumptions []
    (by norm_num [cw4Assumptions]) (by norm_num [cw4Assumptions])

/-- The running left fold the summary uses for the MRR total equals the sum
of the mapped list. -/
theorem foldl_add_mrr (l : List MonthlyProjection) :
    ∀ q : ℚ, l.foldl (fun s p => s + p.mrr) q = q + (l.map (fun p => p.mrr)).sum := by
  induction l with
  | nil => intro q; simp
  | cons p t ih =>
    intro q
    simp only [List.foldl_cons, List.map_cons, List.sum_cons, ih, add_assoc]

/-- C6: for a non-empty horizon and a churn rate in [0, 1], the summary
exists, its ltv is null exactly when the base churn rate is zero, and
otherwise equals the mean MRR of the projected months divided by the base
churn rate, whatever the scenario overrides did to the effective churn. -/
theorem C6_summary_ltv (input : FinancialModelInput)
    (hm : 1 ≤ input.assumptions.months)
    (h0 : 0 ≤ input.assumptions.churnRate)
    (h1 : input.assumptions.churnRate ≤ 1) :
    ∃ s, (runScenario input).summary = some s ∧
      (s.ltv = none ↔ input.assumptions.churnRate = 0) ∧
      (input.assumptions.churnRate ≠ 0 →
        s.ltv = some ((((runScenario input).projections.map (fun p => p.mrr)).sum /
          ((runScenario input).projections.length : ℚ)) /
          input.assumptions.churnRate)) := by
  have hlen : (runScenario input).projections.length = input.assumptions.months :=
    projectMonths_length input.assumptions
      (applyScenarioOverrides input.assumptions input.scenarioOverrides)
      input.hiringPlan input.scenarioOverrides input.assumptions.months 0
      input.company.startingCash (initialActiveCustomers input.assumptions)
  rcases hps : (runScenario input).projections with _ | ⟨f, r⟩
  · rw [hps] at hlen
    simp at hlen
    omega
  · have hsum : (runScenario input).summary =
        generateSummary (f :: r) input.assumptions := by
      rw [show (runScenario input).summary =
        generateSummary (runScenario input).projections input.assumptions from rfl]
      rw [hps]
    rw [hsum]
    simp only [generateSummary]
    refine ⟨_, rfl, ?_, ?_⟩
    · constructor
      · intro hltv
        by_contra hne
        have hpos : 0 < input.assumptions.churnRate :=
          lt_of_le_of_ne h0 (Ne.symm hne)
        simp [if_pos hpos] at hltv
      · intro hzero
        rw [hzero]
        simp
    · intro hne
      have hpos : 0 < input.assumptions.churnRate :=
        lt_of_le_of_ne h0 (Ne.symm hne)
      simp only [if_pos hpos, Option.some.injEq]
      rw [foldl_add_mrr (f :: r) 0, zero_add]

/-- Assumption set for the C6 witness: one month, churn 0.05. -/
def cw6Assumptions : AssumptionInput :=
  { name := "w6", startMonth := "2024-01", months := 1,
    pricingModel := "PER_SEAT", arpu := 10, expectedNewCustomersPerMonth := 2,
    expansionRevenueRate := 0, churnRate := 0.05, cac := 0,
    paybackPeriodMonths := 0, grossMarginPercent := 100,
    fixedCostsPerMonth := 0, variableCostPercentOfRevenue := 0 }

/-- Overrides for the C6 witness: a churn adjustment, so the effective
churn used in the simulation differs from the base churn. -/
def cw6Overrides : ScenarioOverrides := { churnRateAdjustment := some 0.05 }

/-- Full input for the C6 witness. -/
def cw6Input : FinancialModelInput :=
  { company := cw2Company, assumptions := cw6Assumptions, hiringPlan := [],
    scenarioOverrides := some cw6Overrides }

/-- C6 witness: on the one-month input with an active churn adjustment the
theorem produces ltv = mean MRR over base churn = 20 / 0.05 = 400. -/
theorem C6_summary_ltv_witness :
    ∃ s, (runScenario cw6Input).summary = some s ∧ s.ltv = some 400 := by
  obtain ⟨s, hs, hiff, hval⟩ := C6_summary_ltv cw6Input (by decide)
    (by norm_num [cw6Input, cw6Assumptions])
    (by norm_num [cw6Input, cw6Assumptions])
  refine ⟨s, hs, ?_⟩
  rw [hval (by norm_num [cw6Input, cw6Assumptions])]
  norm_num [runScenario, projectMonths, monthProjection, cw6Input,
    cw6Assumptions, cw2Company, cw6Overrides, initialActiveCustomers,
    assumptionsStartingMRR, jsDiv, jsOrElse, applyScenarioOverrides,
    calculateActiveCustomers, calculateRevenue, calculateCosts,
    calculateHeadcount, calculateRunway, findCustomOverride]

/-- An overrides object that carries a single custom monthly entry with a
fixed cost value and nothing else. -/
def singleFixedOverride (mo : ℤ) (nc : Option ℚ) (v : ℚ) : ScenarioOverrides :=
  { customMonthlyOverrides := some [⟨mo, nc, some v⟩] }

/-- The fixed cost calculateCosts picks under a single custom entry that
carries a fixed cost value: the value exactly at the matching month,
the base fixedCostsPerMonth elsewhere. -/
theorem calculateCosts_single_fixed (revenue : ℚ) (idx : ℕ)
    (hp : List HiringPlanItemInput) (a : AssumptionInput)
    (o : ScenarioOverrides) (mo : ℤ) (nc : Option ℚ) (v : ℚ)
    (hov : o.customMonthlyOverrides = some [⟨mo, nc, some v⟩]) :
    (calculateCosts revenue idx hp a (some o)).fixedCosts =
      if (idx : ℤ) = mo then v else a.fixedCostsPerMonth := by
  by_cases hmo : (idx : ℤ) = mo
  · simp [calculateCosts, findCustomOverride, hov, List.find?, hmo]
  · have hbeq : (mo == (idx : ℤ)) = false := by
      rw [beq_eq_false_iff_ne]
      exact fun hEq => hmo hEq.symm
    simp [calculateCosts, findCustomOverride, hov, List.find?, hbeq, hmo]

/-- C7: a customMonthlyOverrides entry that carries a fixedCosts value
(0 included) makes exactly the month with index equal to its monthOffset
use that value, inside calculateCosts and across a full run with that
single override; every other month uses fixedCostsPerMonth. -/
theorem C7_fixed_cost_override (mo : ℤ) (nc : Option ℚ) (v : ℚ) :
    (∀ (revenue : ℚ) (idx : ℕ) (hp : List HiringPlanItemInput)
      (a : AssumptionInput) (o : ScenarioOverrides),
      o.customMonthlyOverrides = some [⟨mo, nc, some v⟩] →
      (calculateCosts revenue idx hp a (some o)).fixedCosts =
        if (idx : ℤ) = mo then v else a.fixedCostsPerMonth) ∧
    (∀ (company : CompanyInput) (a : AssumptionInput)
      (hp : List HiringPlanItemInput) (i : ℕ)
      (h : i < (runScenario
        { company := company, assumptions := a, hiringPlan := hp,
          scenarioOverrides := some (singleFixedOverride mo nc v) }).projections.length),
      ((runScenario
        { company := company, assumptions := a, hiringPlan := hp,
          scenarioOverrides := some (singleFixedOverride mo nc v) }).projections.get
            ⟨i, h⟩).fixedCosts =
        if (i : ℤ) = mo then v else a.fixedCostsPerMonth) := by
  constructor
  · intro revenue idx hp a o hov
    exact calculateCosts_single_fixed revenue idx hp a o mo nc v hov
  · intro company a hp i h
    obtain ⟨c, u, hc⟩ := projectMonths_get_shape a
      (applyScenarioOverrides a (some (singleFixedOverride mo nc v))) hp
      (some (singleFixedOverride mo nc v)) a.months 0 company.startingCash
      (initialActiveCustomers a) i h
    rw [show (runScenario
      { company := company, assumptions := a, hiringPlan := hp,
        scenarioOverrides := some (singleFixedOverride mo nc v) }).projections.get
          ⟨i, h⟩ =
      monthProjection a
        (applyScenarioOverrides a (some (singleFixedOverride mo nc v))) hp
        (some (singleFixedOverride mo nc v)) (0 + i) c u from hc]
    have hfx : (monthProjection a
        (applyScenarioOverrides a (some (singleFixedOverride mo nc v))) hp
        (some (singleFixedOverride mo nc v)) (0 + i) c u).fixedCosts =
        (calculateCosts
          (calculateRevenue
            (calculateActiveCustomers u
              (applyScenarioOverrides a (some (singleFixedOverride mo nc v)))
              (0 + i) (some (singleFixedOverride mo nc v))).activeCustomers
            (applyScenarioOverrides a (some (singleFixedOverride mo nc v)))).revenue
          (0 + i) hp
          (applyScenarioOverrides a (some (singleFixedOverride mo nc v)))
          (some (singleFixedOverride mo nc v))).fixedCosts := rfl
    rw [hfx]
    rw [calculateCosts_single_fixed _ _ _ _ _ mo nc v rfl]
    rw [show (applyScenarioOverrides a
      (some (singleFixedOverride mo nc v))).fixedCostsPerMonth =
      a.fixedCostsPerMonth * ((1 : ℚ)) from rfl]
    rw [mul_one, Nat.zero_add]

/-- C8: the sanity check passes exactly when no warning in its list has
high severity. -/
theorem C8_passed_iff_no_high (company : CompanyInput)
    (a : AssumptionInput) :
    (runSanityChecks company a).passed = true ↔
      ∀ w ∈ (runSanityChecks company a).warnings,
        w.severity ≠ Severity.high := by
  simp only [runSanityChecks, decide_eq_true_eq, List.length_eq_zero,
    List.filter_eq_nil_iff, decide_eq_true_iff]

/-- C9: the simulation reads only startingCash from the company record:
two inputs that agree on startingCash and everything outside the company
produce identical projections and summary, whatever the other company
fields (startingMRR and currentHeadcount included) hold. -/
theorem C9_company_independence (c1 c2 : CompanyInput)
    (a : AssumptionInput) (hp : List HiringPlanItemInput)
    (o : Option ScenarioOverrides)
    (h : c1.startingCash = c2.startingCash) :
    runScenario
      { company := c1, assumptions := a, hiringPlan := hp,
        scenarioOverrides := o } =
    runScenario
      { company := c2, assumptions := a, hiringPlan := hp,
        scenarioOverrides := o } := by
  simp only [runScenario, h]

/-- Company A for the C9 witness. -/
def c9CompanyA : CompanyInput :=
  { name := "A", stage := "PRE_SEED", sector := "FINTECH", country := "IN",
    currency := "EUR", startingCash := 1000, startingMRR := 77,
    currentHeadcount := 9 }

/-- Company B for the C9 witness: same starting cash, everything else
different. -/
def c9CompanyB : CompanyInput :=
  { name := "B", stage := "SERIES_A", sector := "SAAS", country := "US",
    currency := "USD", startingCash := 1000, startingMRR := 123456,
    currentHeadcount := 42 }

/-- Assumption set for the C9 witness. -/
def c9Assumptions : AssumptionInput :=
  { name := "w9", startMonth := "2024-01", months := 1,
    pricingModel := "PER_SEAT", arpu := 3, expectedNewCustomersPerMonth := 4,
    expansionRevenueRate := 0, churnRate := 0.1, cac := 0,
    paybackPeriodMonths := 0, grossMarginPercent := 100,
    fixedCostsPerMonth := 5, variableCostPercentOfRevenue := 0 }

/-- C9 witness: the two concrete companies share only startingCash and the
whole output coincides. -/
theorem C9_company_independence_witness :
    runScenario
      { company := c9CompanyA, assumptions := c9Assumptions, hiringPlan := [],
        scenarioOverrides := none } =
    runScenario
      { company := c9CompanyB, assumptions := c9Assumptions, hiringPlan := [],
        scenarioOverrides := none } :=
  C9_company_independence c9CompanyA c9CompanyB c9Assumptions [] none rfl

/-- C10 counterexample: toString is not one of the three stage names, so
the claim predicts the SEED tier; the lookup instead resolves toString on
the prototype chain to an inherited truthy member and returns it, not the
SEED tier. -/
theorem C10_benchmarks_fallback_counterexample :
    getBenchmarks "toString" = BenchmarkLookup.protoMember "toString" ∧
    ¬ (getBenchmarks "toString" = BenchmarkLookup.tier seedBenchmarks) ∧
    ¬ (getBenchmarks "toString" = getBenchmarks "SEED") := by
  refine ⟨?_, ?_, ?_⟩ <;> decide

/-- C10 amended: every stage string other than the three tabulated stage
names and other than the property names inherited from Object.prototype
(constructor, hasOwnProperty, isPrototypeOf, propertyIsEnumerable,
toLocaleString, toString, valueOf, proto and the four Annex B accessor
helpers, which bracket lookup resolves on the prototype chain to truthy
non-benchmark members) gets exactly the SEED tier; the empty string and
later stage names such as SERIES_B still fall back to SEED. -/
theorem C10_benchmarks_fallback (stage : String)
    (h1 : stage ≠ "PRE_SEED") (h2 : stage ≠ "SEED")
    (h3 : stage ≠ "SERIES_A") (h4 : stage ∉ objectPrototypeKeys) :
    getBenchmarks stage = BenchmarkLookup.tier seedBenchmarks ∧
    getBenchmarks stage = getBenchmarks "SEED" := by
  constructor
  · simp [getBenchmarks, h1, h2, h3, h4]
  · simp [getBenchmarks, h1, h2, h3, h4]

/-- C10 witness: a later stage name outside the table and outside the
inherited keys gets the SEED tier. -/
theorem C10_benchmarks_fallback_witness :
    getBenchmarks "SERIES_B" = BenchmarkLookup.tier seedBenchmarks ∧
    getBenchmarks "SERIES_B" = getBenchmarks "SEED" :=
  C10_benchmarks_fallback "SERIES_B" (by decide) (by decide) (by decide)
    (by decide)

end FinModeler
